import Mathlib

/-!
Shallow embedding of `src/server.py` (yfinance MCP server) and proofs about
its tool entry points.

Modelling conventions:
* A tool entry point is a function `Provider → … → Except String String`.
  `.ok s` is the string the tool returns to the host; `.error e` models a
  Python exception escaping the tool body (propagating to the host).
* `Provider` packages the upstream yfinance accesses a call can make
  (`yf.Ticker` construction, `company.isin`, `company.history`, …), each as
  an `Except String _` value: `.error e` models the access raising an
  exception with message `e`.  `isin = .ok none` models `company.isin is
  None` (the "ticker not found" marker).
* pandas frames are modelled explicitly: row-major frames (`Frame`) for
  history / actions / holders / recommendations, and column-major statement
  frames (`StmtFrame`) for the six financial statements.  Numeric cells are
  `Int` (floating point is out of scope; the claims treat cell values
  opaquely), with an explicit `nan` marker for missing cells.
* Python `dict` assignment (`d[k] = v`) is `dictInsert`: update in place if
  the key is present (keeping its position), else append.
-/

set_option autoImplicit false

namespace YFin

/-- A pandas timestamp, with the fields the formatting paths read.
`epochMs` stands for the underlying epoch value used by
`to_json` when `date_format` is not `"iso"`. -/
structure Timestamp where
  year : Nat
  month : Nat
  day : Nat
  hour : Nat := 0
  minute : Nat := 0
  second : Nat := 0
  epochMs : Int := 0
deriving DecidableEq, Repr

/-- A cell value of a row-major pandas frame. -/
inductive Value where
  | num (n : Int)
  | str (s : String)
  | ts (t : Timestamp)
  | nan
deriving DecidableEq, Repr

/-- A JSON scalar, as produced by the serialization paths of the server
(`json.dumps` / `DataFrame.to_json`).  All serialized cells are scalars. -/
inductive Json where
  | null
  | num (n : Int)
  | str (s : String)
deriving DecidableEq, Repr

/-- Zero-pad a number to two digits (as `strftime` field formatting does). -/
def pad2 (n : Nat) : String :=
  if n < 10 then "0" ++ toString n else toString n

/-- Zero-pad a number to four digits (as `strftime` `%Y` does). -/
def pad4 (n : Nat) : String :=
  if n < 10 then "000" ++ toString n
  else if n < 100 then "00" ++ toString n
  else if n < 1000 then "0" ++ toString n
  else toString n

/-- `column.strftime("%Y-%m-%d")` (server.py line 336). -/
def dateFmt (t : Timestamp) : String :=
  pad4 t.year ++ "-" ++ pad2 t.month ++ "-" ++ pad2 t.day

/-- The ISO-8601 form emitted by `to_json(date_format="iso")` for a
timestamp cell (date, time and milliseconds). -/
def isoStr (t : Timestamp) : String :=
  dateFmt t ++ "T" ++ pad2 t.hour ++ ":" ++ pad2 t.minute ++ ":"
    ++ pad2 t.second ++ ".000"

/-- A column key of a statement frame: `isinstance(column, pd.Timestamp)`
distinguishes timestamp keys from any other key (server.py line 335). -/
inductive ColKey where
  | ts (t : Timestamp)
  | other (s : String)
deriving DecidableEq, Repr

/-- Lines 335-338: a timestamp column key is formatted `YYYY-MM-DD`; any
other key is converted with `str(column)`. -/
def colDateStr : ColKey → String
  | .ts t => dateFmt t
  | .other s => s

/-- A cell of a statement frame: yfinance statements are numeric frames
whose missing cells are NaN (`pd.isna`). -/
inductive StmtCell where
  | num (n : Int)
  | nan
deriving DecidableEq, Repr

/-- Line 346: `None if pd.isna(value) else value`, as later serialized by
`json.dumps` (NaN becomes JSON null, a number is kept unchanged). -/
def stmtCellJson : StmtCell → Json
  | .nan => Json.null
  | .num n => Json.num n

/-- A row-major pandas frame: the index column plus the named data columns,
each column a list of cells in row order. -/
structure Frame where
  indexVals : List Value
  cols : List (String × List Value)
deriving Repr

/-- `df.reset_index(names=name)`: the index becomes the first data column
under `name`; the new index is a fresh range index. -/
def resetIndex (name : String) (f : Frame) : Frame :=
  { indexVals := (List.range f.indexVals.length).map
      (fun i => Value.num (Int.ofNat i)),
    cols := (name, f.indexVals) :: f.cols }

/-- How `DataFrame.to_json` renders one cell: NaN becomes null, a timestamp
becomes its ISO string when `date_format="iso"` and its epoch value
otherwise, numbers and strings are kept. -/
def cellJson (iso : Bool) : Value → Json
  | .nan => Json.null
  | .num n => Json.num n
  | .str s => Json.str s
  | .ts t => if iso then Json.str (isoStr t) else Json.num t.epochMs

/-- The number of rows of a frame (the length of its index). -/
def frameRows (f : Frame) : Nat := f.indexVals.length

/-- `df.to_json(orient="records")`: one record per row, one entry per data
column in column order, the index dropped.  (The `getD` default never
fires on an aligned frame, where every column has `frameRows f` cells.) -/
def toJsonRecords (iso : Bool) (f : Frame) : List (List (String × Json)) :=
  (List.range (frameRows f)).map (fun i =>
    f.cols.map (fun c => (c.1, cellJson iso ((c.2[i]?).getD Value.nan))))

/-- Escape one character as `json.dumps` does for the characters the
server can produce. -/
def escChar (c : Char) : String :=
  if c = '"' then "\\\""
  else if c = '\\' then "\\\\"
  else if c = '\n' then "\\n"
  else String.singleton c

/-- JSON string literal serialization. -/
def dumpStr (s : String) : String :=
  "\"" ++ String.join (s.toList.map escChar) ++ "\""

/-- JSON scalar serialization. -/
def dumpJson : Json → String
  | .null => "null"
  | .num n => toString n
  | .str s => dumpStr s

/-- `json.dumps` object serialization (default separators `", "`, `": "`). -/
def dumpObj (kvs : List (String × Json)) : String :=
  "\x7b" ++ String.intercalate ", "
    (kvs.map (fun kv => dumpStr kv.1 ++ ": " ++ dumpJson kv.2)) ++ "\x7d"

/-- `json.dumps` serialization of a list of records. -/
def pyDump (recs : List (List (String × Json))) : String :=
  "[" ++ String.intercalate ", " (recs.map dumpObj) ++ "]"

/-- `DataFrame.to_json` object serialization (no spaces around separators). -/
def pdDumpObj (kvs : List (String × Json)) : String :=
  "\x7b" ++ String.intercalate ","
    (kvs.map (fun kv => dumpStr kv.1 ++ ":" ++ dumpJson kv.2)) ++ "\x7d"

/-- `DataFrame.to_json(orient="records")` serialization of the record list. -/
def pdDump (recs : List (List (String × Json))) : String :=
  "[" ++ String.intercalate "," (recs.map pdDumpObj) ++ "]"

/-! ### Python dict semantics and the statement normalizer (lines 330-350) -/

/-- Python `d[k] = v` on a dict rendered as an ordered association list:
if `k` is present its value is updated in place (position kept), else the
pair is appended. -/
def dictInsert (m : List (String × Json)) (k : String) (v : Json) :
    List (String × Json) :=
  match m with
  | [] => [(k, v)]
  | kv :: rest => if kv.1 == k then (k, v) :: rest else kv :: dictInsert rest k v

/-- Python `d.get(k)` on the same rendering: the value at key `k`. -/
def dictLookup (m : List (String × Json)) (k : String) : Option Json :=
  match m with
  | [] => none
  | kv :: rest => if kv.1 == k then some kv.2 else dictLookup rest k

/-- Lines 344-346: `for index, value in financial_statement[column].items():
date_obj[index] = None if pd.isna(value) else value`. -/
def addRows (acc : List (String × Json)) :
    List (String × StmtCell) → List (String × Json)
  | [] => acc
  | (k, v) :: rest => addRows (dictInsert acc k (stmtCellJson v)) rest

/-- Lines 334-348: the record built for one statement column — the dict
starts as `{"date": date_str}` and then every (metric, cell) pair of the
column is written into it. -/
def columnRecord (key : ColKey) (rows : List (String × StmtCell)) :
    List (String × Json) :=
  addRows [("date", Json.str (colDateStr key))] rows

/-- A column-major statement frame: the metric names (the row index) and
the columns, each a column key paired with its cells in row order. -/
structure StmtFrame where
  rowNames : List String
  cols : List (ColKey × List StmtCell)
deriving Repr

/-- Lines 330-348: one record per statement column, in native column
order; `financial_statement[column].items()` pairs the row index with the
cells of that column. -/
def normalizeStatement (f : StmtFrame) : List (List (String × Json)) :=
  f.cols.map (fun c => columnRecord c.1 (f.rowNames.zip c.2))

/-! ### News items (lines 255-268) -/

/-- The nested `canonicalUrl` object of a news item; `none` models an
absent `"url"` key. -/
structure CanonicalUrl where
  url : Option String := none
deriving DecidableEq, Repr

/-- The nested `content` object of a news item; `none` models an absent
key at that level. -/
structure NewsContent where
  contentType : Option String := none
  title : Option String := none
  summary : Option String := none
  description : Option String := none
  canonicalUrl : Option CanonicalUrl := none
deriving DecidableEq, Repr

/-- One item of `company.news`; `content = none` models an item without a
`"content"` key. -/
structure NewsItem where
  content : Option NewsContent := none
deriving DecidableEq, Repr

/-- The `{}` default of `news.get("content", {})`. -/
def emptyContent : NewsContent := {}

/-- The `{}` default of `.get("canonicalUrl", {})`. -/
def emptyUrl : CanonicalUrl := {}

/-- `news.get("content", {}).get("contentType", "")` (line 257). -/
def newsContentType (n : NewsItem) : String :=
  ((n.content.getD emptyContent).contentType).getD ""

/-- `news.get("content", {}).get("title", "")` (line 258). -/
def newsTitle (n : NewsItem) : String :=
  ((n.content.getD emptyContent).title).getD ""

/-- `news.get("content", {}).get("summary", "")` (line 259). -/
def newsSummary (n : NewsItem) : String :=
  ((n.content.getD emptyContent).summary).getD ""

/-- `news.get("content", {}).get("description", "")` (line 260). -/
def newsDescription (n : NewsItem) : String :=
  ((n.content.getD emptyContent).description).getD ""

/-- `news.get("content", {}).get("canonicalUrl", {}).get("url", "")`
(line 261). -/
def newsUrl (n : NewsItem) : String :=
  ((((n.content.getD emptyContent).canonicalUrl).getD emptyUrl).url).getD ""

/-- The filter predicate of line 257. -/
def isStory (n : NewsItem) : Bool :=
  newsContentType n == "STORY"

/-- The text block appended for one story item (lines 262-264). -/
def newsBlock (n : NewsItem) : String :=
  "Title: " ++ newsTitle n ++ "\nSummary: " ++ newsSummary n
    ++ "\nDescription: " ++ newsDescription n ++ "\nURL: " ++ newsUrl n

/-! ### Financial statement kinds (lines 11-17, 315-328) -/

/-- The six members of `FinancialType`. -/
inductive FinKind where
  | income_stmt
  | quarterly_income_stmt
  | balance_sheet
  | quarterly_balance_sheet
  | cashflow
  | quarterly_cashflow
deriving DecidableEq, Repr

/-- The wire string of each `FinancialType` member (its enum value). -/
def kindString : FinKind → String
  | .income_stmt => "income_stmt"
  | .quarterly_income_stmt => "quarterly_income_stmt"
  | .balance_sheet => "balance_sheet"
  | .quarterly_balance_sheet => "quarterly_balance_sheet"
  | .cashflow => "cashflow"
  | .quarterly_cashflow => "quarterly_cashflow"

/-- The six legal `financial_type` strings, in declaration order. -/
def financialTypeStrings : List String :=
  ["income_stmt", "quarterly_income_stmt", "balance_sheet",
   "quarterly_balance_sheet", "cashflow", "quarterly_cashflow"]

/-- The `elif` chain of lines 315-327: which statement accessor a given
`financial_type` string selects (string-vs-member equality of the `str`
mixin enum compares against the member value). -/
def finKindOf (s : String) : Option FinKind :=
  if s = "income_stmt" then some .income_stmt
  else if s = "quarterly_income_stmt" then some .quarterly_income_stmt
  else if s = "balance_sheet" then some .balance_sheet
  else if s = "quarterly_balance_sheet" then some .quarterly_balance_sheet
  else if s = "cashflow" then some .cashflow
  else if s = "quarterly_cashflow" then some .quarterly_cashflow
  else none

/-- The provider statement accessors the chain of lines 315-327 invokes
for a given `financial_type` string: exactly the matching one for a legal
string, none for anything else. -/
def statementAccessorCalls (s : String) : List FinKind :=
  match finKindOf s with
  | some k => [k]
  | none => []

/-- Line 328.  Interpolating a `str`-mixin enum member in an f-string
yields the class-qualified form `FinancialType.<name>` on Python 3.11+
(on 3.10 it yields the bare value; each legal value string occurs verbatim
in the message either way). -/
def invalidFinancialTypeMsg (s : String) : String :=
  "Error: invalid financial type " ++ s
    ++ ". Please use one of the following: FinancialType.income_stmt, FinancialType.quarterly_income_stmt, FinancialType.balance_sheet, FinancialType.quarterly_balance_sheet, FinancialType.cashflow, FinancialType.quarterly_cashflow."

/-! ### The upstream provider and the seven tool entry points -/

/-- One call-scoped view of the upstream yfinance accesses.  Each field is
one access the tool body can perform; `.error e` models the access raising
an exception with message `e`.  (`company.news` is read twice in
`get_yahoo_finance_news`, lines 250 and 256; yfinance caches the fetched
list, so both reads are the one `news` outcome.) -/
structure Provider where
  ctor : Except String Unit := .ok ()
  isin : Except String (Option String)
  history : String → String → Except String Frame := fun _ _ => .error "no data"
  info : Except String (List (String × Json)) := .error "no data"
  news : Except String (List NewsItem) := .error "no data"
  actions : Except String Frame := .error "no data"
  stmt : FinKind → Except String StmtFrame := fun _ => .error "no data"
  major_holders : Except String Frame := .error "no data"
  recommendations : Except String Frame := .error "no data"

/-- The not-found string of the `company.isin is None` branches. -/
def notFound (ticker : String) : String :=
  "Company ticker " ++ ticker ++ " not found."

/-- The `"No news found..."` sentinel of lines 266-267. -/
def noNews (ticker : String) : String :=
  "No news found for company that searched with " ++ ticker ++ " ticker."

/-- Lines 70-100: `get_historical_stock_prices`.  `yf.Ticker(ticker)` and
`company.history(...)` are outside the `try` block, so their exceptions
propagate; only the `isin` resolution is guarded. -/
def get_historical_stock_prices (p : Provider)
    (ticker period interval : String) : Except String String :=
  match p.ctor with
  | .error e => .error e
  | .ok _ =>
    match p.isin with
    | .error e =>
        .ok ("Error: getting historical stock prices for " ++ ticker ++ ": " ++ e)
    | .ok none => .ok (notFound ticker)
    | .ok (some _) =>
        match p.history period interval with
        | .error e => .error e
        | .ok df => .ok (pdDump (toJsonRecords true (resetIndex "Date" df)))

/-- Lines 145-218: `get_stock_info`.  The allow-list filter and
`json.dumps`; the `company.info` access is outside the `try` block. -/
def relevant_keys : List String :=
  ["symbol", "longName", "shortName", "sector", "industry",
   "website", "currency",
   "marketCap", "trailingPE", "forwardPE", "priceToBook",
   "trailingEps", "forwardEps", "bookValue",
   "earningsGrowth", "revenueGrowth", "netIncomeToCommon",
   "profitMargins", "grossMargins", "operatingMargins",
   "returnOnAssets", "returnOnEquity",
   "totalRevenue", "totalCash", "totalDebt", "debtToEquity",
   "currentRatio", "quickRatio",
   "dividendRate", "dividendYield", "payoutRatio",
   "trailingAnnualDividendRate", "trailingAnnualDividendYield",
   "currentPrice", "fiftyDayAverage", "twoHundredDayAverage",
   "fiftyTwoWeekLow", "fiftyTwoWeekHigh", "regularMarketChangePercent",
   "fiftyTwoWeekChangePercent", "volume", "averageVolume",
   "averageDailyVolume3Month", "beta"]

/-- Line 217: `{k: v for k, v in info.items() if k in relevant_keys}` —
a dict comprehension over the items of the `info` dict is an
order-preserving filter. -/
def trimmedInfo (info : List (String × Json)) : List (String × Json) :=
  info.filter (fun kv => relevant_keys.contains kv.1)

/-- Lines 145-218: `get_stock_info`. -/
def get_stock_info (p : Provider) (ticker : String) : Except String String :=
  match p.ctor with
  | .error e => .error e
  | .ok _ =>
    match p.isin with
    | .error e =>
        .ok ("Error: getting stock information for " ++ ticker ++ ": " ++ e)
    | .ok none => .ok (notFound ticker)
    | .ok (some _) =>
        match p.info with
        | .error e => .error e
        | .ok info => .ok (dumpObj (trimmedInfo info))

/-- Lines 232-268: `get_yahoo_finance_news`.  Both the resolution and the
news fetch are guarded; the extraction loop filters story items, formats
each block, and either returns the sentinel or the joined blocks. -/
def get_yahoo_finance_news (p : Provider) (ticker : String) :
    Except String String :=
  match p.ctor with
  | .error e => .error e
  | .ok _ =>
    match p.isin with
    | .error e => .ok ("Error: getting news for " ++ ticker ++ ": " ++ e)
    | .ok none => .ok (notFound ticker)
    | .ok (some _) =>
        match p.news with
        | .error e => .ok ("Error: getting news for " ++ ticker ++ ": " ++ e)
        | .ok items =>
            let news_list := (items.filter isStory).map newsBlock
            if news_list.isEmpty then .ok (noNews ticker)
            else .ok (String.intercalate "\n\n" news_list)

/-- Lines 280-289: `get_stock_actions`.  Only the `yf.Ticker(ticker)`
construction is inside the `try` block; there is no `isin` resolution
check, and the `company.actions` access is unguarded. -/
def get_stock_actions (p : Provider) (ticker : String) :
    Except String String :=
  match p.ctor with
  | .error e => .ok ("Error: getting stock actions for " ++ ticker ++ ": " ++ e)
  | .ok _ =>
    match p.actions with
    | .error e => .error e
    | .ok df => .ok (pdDump (toJsonRecords true (resetIndex "Date" df)))

/-- Lines 303-350: `get_financial_statement`.  Resolution is guarded; the
`elif` chain selects the accessor; the accessor access itself is
unguarded; the normalized records are serialized with `json.dumps`. -/
def get_financial_statement (p : Provider) (ticker financial_type : String) :
    Except String String :=
  match p.ctor with
  | .error e => .error e
  | .ok _ =>
    match p.isin with
    | .error e =>
        .ok ("Error: getting financial statement for " ++ ticker ++ ": " ++ e)
    | .ok none => .ok (notFound ticker)
    | .ok (some _) =>
        match finKindOf financial_type with
        | none => .ok (invalidFinancialTypeMsg financial_type)
        | some k =>
            match p.stmt k with
            | .error e => .error e
            | .ok f => .ok (pyDump (normalizeStatement f))

/-- Lines 392-404: `get_holder_info`.  Resolution is guarded; the
`company.major_holders` access is unguarded; the frame is reset with a
`"metric"` index column and serialized without `date_format`. -/
def get_holder_info (p : Provider) (ticker : String) : Except String String :=
  match p.ctor with
  | .error e => .error e
  | .ok _ =>
    match p.isin with
    | .error e => .ok ("Error: getting holder info for " ++ ticker ++ ": " ++ e)
    | .ok none => .ok (notFound ticker)
    | .ok (some _) =>
        match p.major_holders with
        | .error e => .error e
        | .ok df => .ok (pdDump (toJsonRecords false (resetIndex "metric" df)))

/-- Lines 415-429: `get_recommendations`.  Resolution is guarded, and the
`company.recommendations` fetch is guarded by its own `try` block. -/
def get_recommendations (p : Provider) (ticker : String) :
    Except String String :=
  match p.ctor with
  | .error e => .error e
  | .ok _ =>
    match p.isin with
    | .error e =>
        .ok ("Error: getting recommendations for " ++ ticker ++ ": " ++ e)
    | .ok none => .ok (notFound ticker)
    | .ok (some _) =>
        match p.recommendations with
        | .error e =>
            .ok ("Error: getting recommendations for " ++ ticker ++ ": " ++ e)
        | .ok df => .ok (pdDump (toJsonRecords false df))

/-! ### Tool signatures (the parameter lists of the `async def` headers) -/

/-- Line 70: the parameters of `get_historical_stock_prices`. -/
def get_historical_stock_prices_params : List String :=
  ["ticker", "period", "interval"]

/-- Line 303: the parameters of `get_financial_statement`. -/
def get_financial_statement_params : List String := ["ticker", "financial_type"]

/-- Line 392: the parameters of `get_holder_info` — a ticker only; no
holder-kind parameter exists. -/
def get_holder_info_params : List String := ["ticker"]

/-- Line 415: the parameters of `get_recommendations` — a ticker only; no
recommendation-kind parameter exists. -/
def get_recommendations_params : List String := ["ticker"]

/-! ### Concrete frames, providers and news items used by the proofs -/

/-- Frame used by the C5 counterexample: one column, two rows that share
the metric name `Revenue`. -/
def c5DupFrame : StmtFrame :=
  { rowNames := ["Revenue", "Revenue"],
    cols := [(ColKey.ts { year := 2024, month := 12, day := 31 },
      [StmtCell.num 1, StmtCell.num 2])] }

/-- Frame used by the C5 counterexample: one column, one row whose metric
name is the reserved string `date`. -/
def c5DateFrame : StmtFrame :=
  { rowNames := ["date"],
    cols := [(ColKey.ts { year := 2024, month := 12, day := 31 },
      [StmtCell.num 5])] }

/-- Frame used by the C5 witness: two columns (one timestamp key, one
plain-string key), two distinct metric rows, one NaN cell. -/
def c5WitnessFrame : StmtFrame :=
  { rowNames := ["Total Revenue", "Net Income"],
    cols := [(ColKey.ts { year := 2024, month := 9, day := 28 },
        [StmtCell.num 391035000000, StmtCell.nan]),
      (ColKey.other "TTM", [StmtCell.num 7, StmtCell.num 8])] }

/-- Frame used by the C6 witness: one row, two price columns. -/
def c6Frame : Frame :=
  { indexVals := [Value.ts { year := 2024, month := 1, day := 2 }],
    cols := [("Open", [Value.num 185]), ("Close", [Value.num 186])] }

/-- Provider used by the C6 witness. -/
def c6Provider : Provider :=
  { isin := .ok (some "US0378331005"),
    history := fun _ _ => .ok c6Frame,
    actions := .ok c6Frame }

/-- Provider used by the C1 counterexample: the ticker resolves, but the
`company.history` fetch raises. -/
def c1Provider : Provider :=
  { isin := .ok (some "US0378331005"),
    history := fun _ _ => .error "boom" }

/-- Frame used by the C2 counterexample. -/
def c2Frame : Frame :=
  { indexVals := [Value.ts { year := 2024, month := 2, day := 9 }],
    cols := [("Dividends", [Value.num 0])] }

/-- Provider used by the C2 counterexample: resolution yields the absent
marker, yet actions data is available. -/
def c2Provider : Provider :=
  { isin := .ok none, actions := .ok c2Frame }

/-- Statement frame used by the C3 witness. -/
def c3Frame : StmtFrame :=
  { rowNames := ["Total Revenue"],
    cols := [(ColKey.ts { year := 2024, month := 9, day := 28 },
      [StmtCell.num 391035000000])] }

/-- Provider used by the C3 witness. -/
def c3Provider : Provider :=
  { isin := .ok (some "US0378331005"), stmt := fun _ => .ok c3Frame }

/-- Provider used by the C4 witness. -/
def c4Provider : Provider := { isin := .ok (some "US0378331005") }

/-- Provider used by the C7 witness: one allow-listed key between two
non-listed ones. -/
def c7Provider : Provider :=
  { isin := .ok (some "US0378331005"),
    info := .ok [("address1", Json.str "One Apple Park Way"),
      ("marketCap", Json.num 3000000000000),
      ("maxAge", Json.num 86400)] }

/-- News item used by the C8 witness: a video, not a story. -/
def c8Item : NewsItem := { content := some { contentType := some "VIDEO" } }

/-- Provider used by the C8 witness. -/
def c8Provider : Provider :=
  { isin := .ok (some "US0378331005"), news := .ok [c8Item] }

/-- News items used by the C9 witness: one story with absent summary,
description defaulting to empty, and one video that must be dropped. -/
def c9Story : NewsItem :=
  { content := some
      { contentType := some "STORY",
        title := some "Apple hits high",
        canonicalUrl := some { url := some "https://example.com/a" } } }

/-- Video item used by the C9 witness. -/
def c9Video : NewsItem :=
  { content := some { contentType := some "VIDEO", title := some "clip" } }

/-- Provider used by the C9 witness. -/
def c9Provider : Provider :=
  { isin := .ok (some "US0378331005"), news := .ok [c9Video, c9Story] }

/-! ### Helper lemmas on dict semantics -/

theorem dictLookup_dictInsert (m : List (String × Json)) (k k' : String)
    (v : Json) :
    dictLookup (dictInsert m k v) k' =
      if k' = k then some v else dictLookup m k' := by
  induction m with
  | nil =>
    by_cases h : k' = k
    · subst h; simp [dictInsert, dictLookup]
    · simp [dictInsert, dictLookup, h, Ne.symm h]
  | cons a rest ih =>
    by_cases hak : a.1 = k
    · by_cases h : k' = k
      · subst h
        simp [dictInsert, dictLookup, hak]
      · have h1 : ¬a.1 = k' := fun hc => h (hc.symm.trans hak)
        simp [dictInsert, dictLookup, hak, h, Ne.symm h, h1]
    · by_cases hak' : a.1 = k'
      · have h : ¬k' = k := fun hc => hak (hak'.trans hc)
        simp [dictInsert, dictLookup, hak, hak', h]
      · simp [dictInsert, dictLookup, hak, hak', ih]

theorem dictInsert_fresh (m : List (String × Json)) (k : String) (v : Json)
    (h : dictLookup m k = none) : dictInsert m k v = m ++ [(k, v)] := by
  induction m with
  | nil => simp [dictInsert]
  | cons a rest ih =>
    by_cases hak : a.1 = k
    · simp [dictLookup, hak] at h
    · simp only [dictLookup] at h
      rw [if_neg (by simp [hak])] at h
      simp [dictInsert, hak, ih h]

theorem mem_keys_dictInsert (m : List (String × Json)) (k : String) (v : Json)
    (x : String) :
    x ∈ (dictInsert m k v).map Prod.fst ↔ x ∈ m.map Prod.fst ∨ x = k := by
  induction m with
  | nil => simp [dictInsert]
  | cons a rest ih =>
    by_cases hak : a.1 = k
    · simp only [dictInsert, if_pos (by simp [hak] : (a.1 == k) = true)]
      simp [hak]
      tauto
    · simp only [dictInsert, if_neg (by simp [hak] : ¬(a.1 == k) = true)]
      simp [ih]
      tauto

theorem nodup_keys_dictInsert (m : List (String × Json)) (k : String)
    (v : Json) (h : (m.map Prod.fst).Nodup) :
    ((dictInsert m k v).map Prod.fst).Nodup := by
  induction m with
  | nil => simp [dictInsert]
  | cons a rest ih =>
    simp only [List.map_cons, List.nodup_cons] at h
    by_cases hak : a.1 = k
    · simp only [dictInsert, if_pos (by simp [hak] : (a.1 == k) = true)]
      simp only [List.map_cons, List.nodup_cons]
      exact ⟨fun hk => h.1 (hak ▸ hk), h.2⟩
    · simp only [dictInsert, if_neg (by simp [hak] : ¬(a.1 == k) = true)]
      simp only [List.map_cons, List.nodup_cons]
      refine ⟨fun hx => ?_, ih h.2⟩
      rcases (mem_keys_dictInsert rest k v a.1).mp hx with hm | hm
      · exact h.1 hm
      · exact hak hm

theorem dictLookup_addRows (rows : List (String × StmtCell)) :
    ∀ (acc : List (String × Json)) (k : String),
      dictLookup (addRows acc rows) k =
        ((rows.reverse.find? (fun rv => rv.1 == k)).map
          (fun rv => stmtCellJson rv.2)).or (dictLookup acc k) := by
  induction rows with
  | nil => intro acc k; simp [addRows]
  | cons r rest ih =>
    intro acc k
    simp only [addRows, List.reverse_cons, List.find?_append]
    rw [ih]
    cases hfind : rest.reverse.find? (fun rv => rv.1 == k) with
    | some rv => simp [Option.or]
    | none =>
      rw [dictLookup_dictInsert]
      by_cases h : k = r.1
      · subst h
        simp [List.find?, Option.or]
      · have hb : (r.1 == k) = false := by
          simp
          intro hcontra
          exact h hcontra.symm
        simp [List.find?, hb, Option.or, h]

theorem nodup_keys_addRows (rows : List (String × StmtCell)) :
    ∀ (acc : List (String × Json)), (acc.map Prod.fst).Nodup →
      ((addRows acc rows).map Prod.fst).Nodup := by
  induction rows with
  | nil => intro acc h; exact h
  | cons r rest ih =>
    intro acc h
    exact ih _ (nodup_keys_dictInsert acc r.1 (stmtCellJson r.2) h)

theorem addRows_fresh (rows : List (String × StmtCell)) :
    ∀ (acc : List (String × Json)), (rows.map Prod.fst).Nodup →
      (∀ rv ∈ rows, dictLookup acc rv.1 = none) →
      addRows acc rows =
        acc ++ rows.map (fun rv => (rv.1, stmtCellJson rv.2)) := by
  induction rows with
  | nil => intro acc _ _; simp [addRows]
  | cons r rest ih =>
    intro acc hnodup hfresh
    rw [List.map_cons, List.nodup_cons] at hnodup
    simp only [addRows]
    rw [ih _ hnodup.2]
    · rw [dictInsert_fresh _ _ _ (hfresh r (by simp))]
      simp
    · intro rv hrv
      rw [dictLookup_dictInsert]
      have hne : rv.1 ≠ r.1 := by
        intro hcontra
        exact hnodup.1 (hcontra ▸ List.mem_map_of_mem Prod.fst hrv)
      simp [hne]
      exact hfresh rv (List.mem_cons_of_mem _ hrv)

theorem finKindOf_of_not_mem (s : String) (h : s ∉ financialTypeStrings) :
    finKindOf s = none := by
  simp [financialTypeStrings] at h
  obtain ⟨n1, n2, n3, n4, n5, n6⟩ := h
  simp [finKindOf, n1, n2, n3, n4, n5, n6]

theorem finKindOf_kindString (k : FinKind) : finKindOf (kindString k) = some k := by
  cases k <;> rfl

/-! ### Claim theorems -/

/-- Claim C10: each statement record is a single key-value map built by
Python dict writes — the value stored at any key is the last write at that
key, where the write sequence is the reserved `date` entry first and then
the rows in native order; duplicate metric names, or a metric named
`date`, silently overwrite the earlier value.  The record keys are
therefore duplicate-free, and the statement normalizer builds exactly one
such record per column. -/
theorem C10_record_last_write_wins :
    (∀ (key : ColKey) (rows : List (String × StmtCell)) (k : String),
      dictLookup (columnRecord key rows) k =
        (((("date", Json.str (colDateStr key)) ::
            rows.map (fun rv => (rv.1, stmtCellJson rv.2))).reverse.find?
          (fun kv => kv.1 == k)).map (fun kv => kv.2))) ∧
    (∀ (key : ColKey) (rows : List (String × StmtCell)),
      ((columnRecord key rows).map Prod.fst).Nodup) ∧
    (∀ f : StmtFrame, normalizeStatement f =
      f.cols.map (fun c => columnRecord c.1 (f.rowNames.zip c.2))) := by
  refine ⟨?_, ?_, fun f => rfl⟩
  · intro key rows k
    simp only [columnRecord]
    rw [dictLookup_addRows]
    simp only [List.reverse_cons, List.find?_append, ← List.map_reverse,
      List.find?_map]
    cases hfind : rows.reverse.find?
        ((fun kv : String × Json => kv.1 == k) ∘
          (fun rv : String × StmtCell => (rv.1, stmtCellJson rv.2))) with
    | some rv =>
      have hfind2 : rows.reverse.find? (fun rv => rv.1 == k) = some rv := hfind
      rw [hfind2]
      simp
    | none =>
      have hfind2 : rows.reverse.find? (fun rv => rv.1 == k) = none := hfind
      rw [hfind2]
      by_cases h : ("date" : String) = k
      · subst h
        simp [dictLookup, List.find?]
      · have hb : (("date" : String) == k) = false := by
          simp [h]
        simp [dictLookup, List.find?, hb]
  · intro key rows
    exact nodup_keys_addRows rows _ (by simp)

/-- Claim C5 counterexample: on a table with two rows named `Revenue`,
the emitted record has 2 entries, not the claimed 1 + 2 (the first row is
overwritten, hence omitted); and on a table with a row named `date`, the
record does not start with the formatted column key — the row value
overwrites it. -/
theorem C5_counterexample :
    normalizeStatement c5DupFrame =
      [[("date", Json.str "2024-12-31"), ("Revenue", Json.num 2)]] ∧
    ((normalizeStatement c5DupFrame).headD []).length = 2 ∧
    1 + c5DupFrame.rowNames.length = 3 ∧
    normalizeStatement c5DateFrame = [[("date", Json.num 5)]] ∧
    dictLookup ((normalizeStatement c5DateFrame).headD []) "date" =
      some (Json.num 5) ∧
    Json.num 5 ≠ Json.str "2024-12-31" := by
  refine ⟨?_, ?_, ?_, ?_, ?_, ?_⟩ <;> decide

/-- Claim C5 (amended): provided the metric names of the statement table
are pairwise distinct, none of them is the string `date`, and the table
is aligned (every column has one cell per row), the normalizer emits one
record per column in native column order, each record being the `date`
entry (timestamp keys formatted `YYYY-MM-DD`, other keys via `str`)
followed by one entry per row in native row order with NaN cells mapped
to null; a table with no columns yields the empty sequence. -/
theorem C5_amended (f : StmtFrame)
    (hnodup : f.rowNames.Nodup) (hdate : "date" ∉ f.rowNames)
    (hlen : ∀ c ∈ f.cols, c.2.length = f.rowNames.length) :
    normalizeStatement f = f.cols.map (fun c =>
      ("date", Json.str (colDateStr c.1)) ::
        (f.rowNames.zip c.2).map (fun rv => (rv.1, stmtCellJson rv.2))) ∧
    (f.cols = [] → normalizeStatement f = []) := by
  constructor
  · unfold normalizeStatement
    apply List.map_congr_left
    intro c hc
    have hkeys : (f.rowNames.zip c.2).map Prod.fst = f.rowNames :=
      List.map_fst_zip _ _ (le_of_eq (hlen c hc).symm)
    unfold columnRecord
    rw [addRows_fresh]
    · simp
    · rw [hkeys]; exact hnodup
    · intro rv hrv
      have hmem : rv.1 ∈ f.rowNames := by
        rw [← hkeys]; exact List.mem_map_of_mem _ hrv
      have hne : ¬("date" : String) = rv.1 := by
        intro hcontra
        exact hdate (hcontra ▸ hmem)
      simp [dictLookup, hne]
  · intro h
    simp [normalizeStatement, h]

/-- Witness for the amended C5 on a concrete aligned table. -/
theorem C5_amended_witness :
    normalizeStatement c5WitnessFrame =
      [[("date", Json.str "2024-09-28"), ("Total Revenue", Json.num 391035000000),
        ("Net Income", Json.null)],
       [("date", Json.str "TTM"), ("Total Revenue", Json.num 7),
        ("Net Income", Json.num 8)]] := by
  rw [(C5_amended c5WitnessFrame (by decide) (by decide) (by decide)).1]
  rfl

/-- Claim C6: the row-major normalization used for historical prices and
corporate actions emits exactly one record per table row; the reserved
`Date` key holds the row's ISO-8601 timestamp (the reset index), and the
remaining table columns are copied per row in column order; the two tools
return exactly this normalization of their fetched frame. -/
theorem C6_row_major_records (f : Frame) (p : Provider)
    (ticker period interval i : String) (t : Timestamp) (n : Nat) :
    ((toJsonRecords true (resetIndex "Date" f)).length = frameRows f) ∧
    (f.indexVals[n]? = some (Value.ts t) →
      (toJsonRecords true (resetIndex "Date" f))[n]? =
        some (("Date", Json.str (isoStr t)) ::
          f.cols.map (fun c => (c.1, cellJson true ((c.2[n]?).getD Value.nan))))) ∧
    (p.ctor = .ok () → p.isin = .ok (some i) →
      p.history period interval = .ok f →
      get_historical_stock_prices p ticker period interval =
        .ok (pdDump (toJsonRecords true (resetIndex "Date" f)))) ∧
    (p.ctor = .ok () → p.actions = .ok f →
      get_stock_actions p ticker =
        .ok (pdDump (toJsonRecords true (resetIndex "Date" f)))) := by
  refine ⟨?_, ?_, ?_, ?_⟩
  · simp only [toJsonRecords, resetIndex, frameRows, List.length_map,
      List.length_range]
  · intro h
    have hn : n < f.indexVals.length := by
      rcases List.getElem?_eq_some.mp h with ⟨hlt, _⟩
      exact hlt
    simp only [toJsonRecords, resetIndex, frameRows, List.length_map,
      List.length_range, List.getElem?_map, List.getElem?_range hn,
      Option.map_some', List.map_cons]
    simp [h, cellJson]
  · intro h1 h2 h3
    simp [get_historical_stock_prices, h1, h2, h3]
  · intro h1 h2
    simp [get_stock_actions, h1, h2]

/-- Witness for C6 on a concrete one-row frame. -/
theorem C6_row_major_records_witness :
    (toJsonRecords true (resetIndex "Date" c6Frame))[0]? =
      some [("Date", Json.str "2024-01-02T00:00:00.000"),
        ("Open", Json.num 185), ("Close", Json.num 186)] ∧
    get_historical_stock_prices c6Provider "AAPL" "1mo" "1d" =
      .ok (pdDump (toJsonRecords true (resetIndex "Date" c6Frame))) := by
  constructor
  · rw [(C6_row_major_records c6Frame c6Provider "AAPL" "1mo" "1d"
      "US0378331005" { year := 2024, month := 1, day := 2 } 0).2.1 rfl]
    rfl
  · exact (C6_row_major_records c6Frame c6Provider "AAPL" "1mo" "1d"
      "US0378331005" { year := 2024, month := 1, day := 2 } 0).2.2.1 rfl rfl rfl

/-- Claim C1 counterexample: with a provider whose post-resolution
`history` fetch raises, `get_historical_stock_prices` does not return a
string — the exception propagates past the entry point (the fetch at line
97 is outside the `try` block of lines 88-94). -/
theorem C1_counterexample :
    get_historical_stock_prices c1Provider "AAPL" "1mo" "1d" =
      .error "boom" := rfl

/-- Claim C1 (amended): resolution-phase failures never propagate — every
tool converts an `isin` lookup that raises, or that returns the absent
marker, into a descriptive string result; `get_stock_actions` converts a
`yf.Ticker` constructor failure into a string; and the news and
recommendations fetches are additionally guarded in their tools.
(Post-resolution fetch exceptions in the other five tools propagate, as
the counterexample shows.) -/
theorem C1_resolution_failures_stringified (p : Provider)
    (ticker period interval financial_type e i : String) :
    (p.ctor = .ok () → p.isin = .ok none →
      get_historical_stock_prices p ticker period interval =
        .ok (notFound ticker) ∧
      get_stock_info p ticker = .ok (notFound ticker) ∧
      get_yahoo_finance_news p ticker = .ok (notFound ticker) ∧
      get_financial_statement p ticker financial_type = .ok (notFound ticker) ∧
      get_holder_info p ticker = .ok (notFound ticker) ∧
      get_recommendations p ticker = .ok (notFound ticker)) ∧
    (p.ctor = .ok () → p.isin = .error e →
      get_historical_stock_prices p ticker period interval =
        .ok ("Error: getting historical stock prices for " ++ ticker ++ ": " ++ e) ∧
      get_stock_info p ticker =
        .ok ("Error: getting stock information for " ++ ticker ++ ": " ++ e) ∧
      get_yahoo_finance_news p ticker =
        .ok ("Error: getting news for " ++ ticker ++ ": " ++ e) ∧
      get_financial_statement p ticker financial_type =
        .ok ("Error: getting financial statement for " ++ ticker ++ ": " ++ e) ∧
      get_holder_info p ticker =
        .ok ("Error: getting holder info for " ++ ticker ++ ": " ++ e) ∧
      get_recommendations p ticker =
        .ok ("Error: getting recommendations for " ++ ticker ++ ": " ++ e)) ∧
    (p.ctor = .error e →
      get_stock_actions p ticker =
        .ok ("Error: getting stock actions for " ++ ticker ++ ": " ++ e)) ∧
    (p.ctor = .ok () → p.isin = .ok (some i) → p.news = .error e →
      get_yahoo_finance_news p ticker =
        .ok ("Error: getting news for " ++ ticker ++ ": " ++ e)) ∧
    (p.ctor = .ok () → p.isin = .ok (some i) → p.recommendations = .error e →
      get_recommendations p ticker =
        .ok ("Error: getting recommendations for " ++ ticker ++ ": " ++ e)) := by
  refine ⟨fun h1 h2 => ?_, fun h1 h2 => ?_, fun h1 => ?_,
    fun h1 h2 h3 => ?_, fun h1 h2 h3 => ?_⟩
  · exact ⟨by simp [get_historical_stock_prices, h1, h2],
      by simp [get_stock_info, h1, h2],
      by simp [get_yahoo_finance_news, h1, h2],
      by simp [get_financial_statement, h1, h2],
      by simp [get_holder_info, h1, h2],
      by simp [get_recommendations, h1, h2]⟩
  · exact ⟨by simp [get_historical_stock_prices, h1, h2],
      by simp [get_stock_info, h1, h2],
      by simp [get_yahoo_finance_news, h1, h2],
      by simp [get_financial_statement, h1, h2],
      by simp [get_holder_info, h1, h2],
      by simp [get_recommendations, h1, h2]⟩
  · simp [get_stock_actions, h1]
  · simp [get_yahoo_finance_news, h1, h2, h3]
  · simp [get_recommendations, h1, h2, h3]

/-- Witness for the amended C1: a concrete unresolved ticker and a
concrete constructor failure produce string results. -/
theorem C1_resolution_failures_stringified_witness :
    get_stock_info { isin := .ok none : Provider } "ZZZ" =
      .ok (notFound "ZZZ") ∧
    get_stock_actions { ctor := .error "down", isin := .ok none : Provider }
        "ZZZ" =
      .ok ("Error: getting stock actions for " ++ "ZZZ" ++ ": " ++ "down") :=
  ⟨((C1_resolution_failures_stringified { isin := .ok none } "ZZZ" "1mo" "1d"
      "income_stmt" "e" "i").1 rfl rfl).2.1,
   (C1_resolution_failures_stringified { ctor := .error "down", isin := .ok none }
      "ZZZ" "1mo" "1d" "income_stmt" "down" "i").2.2.1 rfl⟩

/-- Claim C2 counterexample: with the resolution yielding the absent
marker, `get_stock_actions` does not return the not-found string — it has
no resolution check at all and returns the fetched actions data. -/
theorem C2_counterexample :
    get_stock_actions c2Provider "ZZZ" =
      .ok "[\x7b\"Date\":\"2024-02-09T00:00:00.000\",\"Dividends\":0\x7d]" ∧
    get_stock_actions c2Provider "ZZZ" ≠ .ok (notFound "ZZZ") := by
  have he : get_stock_actions c2Provider "ZZZ" =
      .ok "[\x7b\"Date\":\"2024-02-09T00:00:00.000\",\"Dividends\":0\x7d]" := rfl
  refine ⟨he, ?_⟩
  rw [he]
  intro h
  injection h with h'
  exact absurd h' (by decide)

/-- Claim C2 (amended): for every ticker whose `isin` resolution yields the
absent marker, six of the seven tools (all but `get_stock_actions`) return
the string `Company ticker {ticker} not found.` before any data fetch and
never throw; `get_stock_actions` performs no resolution check — its result
does not depend on the resolution outcome. -/
theorem C2_not_found_before_fetch (p : Provider)
    (ticker period interval financial_type : String)
    (hc : p.ctor = .ok ()) (hi : p.isin = .ok none) :
    get_historical_stock_prices p ticker period interval =
      .ok (notFound ticker) ∧
    get_stock_info p ticker = .ok (notFound ticker) ∧
    get_yahoo_finance_news p ticker = .ok (notFound ticker) ∧
    get_financial_statement p ticker financial_type = .ok (notFound ticker) ∧
    get_holder_info p ticker = .ok (notFound ticker) ∧
    get_recommendations p ticker = .ok (notFound ticker) ∧
    (∀ x, get_stock_actions { p with isin := x } ticker =
      get_stock_actions p ticker) := by
  exact ⟨by simp [get_historical_stock_prices, hc, hi],
    by simp [get_stock_info, hc, hi],
    by simp [get_yahoo_finance_news, hc, hi],
    by simp [get_financial_statement, hc, hi],
    by simp [get_holder_info, hc, hi],
    by simp [get_recommendations, hc, hi],
    fun x => rfl⟩

/-- Witness for the amended C2 at a concrete unresolved ticker. -/
theorem C2_not_found_before_fetch_witness :
    get_holder_info { isin := .ok none : Provider } "INVALIDTICKERXYZ" =
      .ok (notFound "INVALIDTICKERXYZ") :=
  (C2_not_found_before_fetch { isin := .ok none } "INVALIDTICKERXYZ" "1mo"
    "1d" "income_stmt" rfl rfl).2.2.2.2.1

/-- Claim C3: for each of the 6 legal statement-kind strings the `elif`
chain selects exactly the matching provider accessor (and the result is
exactly the normalization of that accessor's frame); the result depends
only on the matching accessor; for any other string no accessor is
invoked and the tool returns the validation-error message, in which each
of the 6 legal value strings occurs verbatim.  (Accessor call
multiplicity is modelled by `statementAccessorCalls`, the list of
accessors the chain invokes, together with the dependence conjunct.) -/
theorem C3_statement_dispatch (p : Provider) (ticker s i : String)
    (hc : p.ctor = .ok ()) (hi : p.isin = .ok (some i)) :
    (∀ k : FinKind, finKindOf (kindString k) = some k ∧
      statementAccessorCalls (kindString k) = [k] ∧
      kindString k ∈ financialTypeStrings) ∧
    (∀ (k : FinKind) (f : StmtFrame), finKindOf s = some k →
      p.stmt k = .ok f →
      get_financial_statement p ticker s =
        .ok (pyDump (normalizeStatement f))) ∧
    (s ∉ financialTypeStrings →
      statementAccessorCalls s = [] ∧
      get_financial_statement p ticker s = .ok (invalidFinancialTypeMsg s) ∧
      ∀ v ∈ financialTypeStrings,
        ∃ a b, invalidFinancialTypeMsg s = a ++ (v ++ b)) ∧
    (∀ g h : FinKind → Except String StmtFrame,
      (∀ k, finKindOf s = some k → g k = h k) →
      get_financial_statement { p with stmt := g } ticker s =
        get_financial_statement { p with stmt := h } ticker s) := by
  refine ⟨?_, ?_, ?_, ?_⟩
  · intro k
    exact ⟨finKindOf_kindString k, by cases k <;> rfl, by cases k <;> decide⟩
  · intro k f hk hf
    simp [get_financial_statement, hc, hi, hk, hf]
  · intro hs
    have h0 := finKindOf_of_not_mem s hs
    refine ⟨by simp [statementAccessorCalls, h0],
      by simp [get_financial_statement, hc, hi, h0], ?_⟩
    intro v hv
    simp only [financialTypeStrings, List.mem_cons, List.not_mem_nil,
      or_false] at hv
    rcases hv with h | h | h | h | h | h <;> subst h
    · exact ⟨"Error: invalid financial type " ++ s
        ++ ". Please use one of the following: FinancialType.",
        ", FinancialType.quarterly_income_stmt, FinancialType.balance_sheet, FinancialType.quarterly_balance_sheet, FinancialType.cashflow, FinancialType.quarterly_cashflow.",
        by simp only [invalidFinancialTypeMsg, String.append_assoc]; rfl⟩
    · exact ⟨"Error: invalid financial type " ++ s
        ++ ". Please use one of the following: FinancialType.income_stmt, FinancialType.",
        ", FinancialType.balance_sheet, FinancialType.quarterly_balance_sheet, FinancialType.cashflow, FinancialType.quarterly_cashflow.",
        by simp only [invalidFinancialTypeMsg, String.append_assoc]; rfl⟩
    · exact ⟨"Error: invalid financial type " ++ s
        ++ ". Please use one of the following: FinancialType.income_stmt, FinancialType.quarterly_income_stmt, FinancialType.",
        ", FinancialType.quarterly_balance_sheet, FinancialType.cashflow, FinancialType.quarterly_cashflow.",
        by simp only [invalidFinancialTypeMsg, String.append_assoc]; rfl⟩
    · exact ⟨"Error: invalid financial type " ++ s
        ++ ". Please use one of the following: FinancialType.income_stmt, FinancialType.quarterly_income_stmt, FinancialType.balance_sheet, FinancialType.",
        ", FinancialType.cashflow, FinancialType.quarterly_cashflow.",
        by simp only [invalidFinancialTypeMsg, String.append_assoc]; rfl⟩
    · exact ⟨"Error: invalid financial type " ++ s
        ++ ". Please use one of the following: FinancialType.income_stmt, FinancialType.quarterly_income_stmt, FinancialType.balance_sheet, FinancialType.quarterly_balance_sheet, FinancialType.",
        ", FinancialType.quarterly_cashflow.",
        by simp only [invalidFinancialTypeMsg, String.append_assoc]; rfl⟩
    · exact ⟨"Error: invalid financial type " ++ s
        ++ ". Please use one of the following: FinancialType.income_stmt, FinancialType.quarterly_income_stmt, FinancialType.balance_sheet, FinancialType.quarterly_balance_sheet, FinancialType.cashflow, FinancialType.",
        ".",
        by simp only [invalidFinancialTypeMsg, String.append_assoc]; rfl⟩
  · intro g h hgh
    cases hk : finKindOf s with
    | none => simp [get_financial_statement, hc, hi, hk]
    | some k => simp [get_financial_statement, hc, hi, hk, hgh k hk]

/-- Witness for C3: a legal kind dispatches to the accessor frame; an
illegal kind yields the validation-error message. -/
theorem C3_statement_dispatch_witness :
    get_financial_statement c3Provider "AAPL" "income_stmt" =
      .ok (pyDump (normalizeStatement c3Frame)) ∧
    get_financial_statement c3Provider "AAPL" "revenue" =
      .ok (invalidFinancialTypeMsg "revenue") :=
  ⟨(C3_statement_dispatch c3Provider "AAPL" "income_stmt" "US0378331005"
      rfl rfl).2.1 FinKind.income_stmt c3Frame rfl rfl,
   ((C3_statement_dispatch c3Provider "AAPL" "revenue" "US0378331005"
      rfl rfl).2.2.1 (by decide)).2.1⟩

/-- Claim C4 counterexample: the holder-kind and recommendation-kind
enumerations are accepted by no tool — the parameter lists of
`get_holder_info` and `get_recommendations` consist of the ticker alone —
so no out-of-enumeration holder or recommendation kind can reach those
tools, let alone be rejected with a validation error. -/
theorem C4_counterexample :
    (¬∃ x, x ∈ get_holder_info_params ∧ x ≠ "ticker") ∧
    (¬∃ x, x ∈ get_recommendations_params ∧ x ≠ "ticker") ∧
    get_holder_info_params = ["ticker"] ∧
    get_recommendations_params = ["ticker"] := by
  refine ⟨?_, ?_, rfl, rfl⟩ <;> decide

/-- Claim C4 (amended): of the three declared string enumerations only the
statement kind is accepted as a tool parameter; `get_financial_statement`
rejects any value outside that closed enumeration with a validation-error
result rather than a crash, while `get_holder_info` and
`get_recommendations` accept only a ticker, so the holder-kind and
recommendation-kind enumerations are never validated. -/
theorem C4_enum_validation (p : Provider) (ticker s i : String)
    (hc : p.ctor = .ok ()) (hi : p.isin = .ok (some i))
    (hs : s ∉ financialTypeStrings) :
    get_financial_statement p ticker s = .ok (invalidFinancialTypeMsg s) ∧
    get_holder_info_params = ["ticker"] ∧
    get_recommendations_params = ["ticker"] := by
  refine ⟨?_, rfl, rfl⟩
  simp [get_financial_statement, hc, hi, finKindOf_of_not_mem s hs]

/-- Witness for the amended C4 at a concrete out-of-enumeration value. -/
theorem C4_enum_validation_witness :
    get_financial_statement c4Provider "AAPL" "major_holders" =
      .ok (invalidFinancialTypeMsg "major_holders") :=
  (C4_enum_validation c4Provider "AAPL" "major_holders" "US0378331005"
    rfl rfl (by decide)).1

/-- Claim C7: `get_stock_info` returns exactly the key-value pairs of the
info bag whose key lies in the fixed allow-list, values unmodified; keys
outside the allow-list are dropped silently, and a bag sharing no key
with the allow-list projects to the empty object. -/
theorem C7_info_projection (p : Provider) (ticker i : String)
    (info : List (String × Json))
    (hc : p.ctor = .ok ()) (hi : p.isin = .ok (some i))
    (hinfo : p.info = .ok info) :
    get_stock_info p ticker = .ok (dumpObj (trimmedInfo info)) ∧
    (∀ kv : String × Json,
      kv ∈ trimmedInfo info ↔ kv ∈ info ∧ kv.1 ∈ relevant_keys) ∧
    ((∀ kv ∈ info, kv.1 ∉ relevant_keys) → trimmedInfo info = []) := by
  refine ⟨?_, ?_, ?_⟩
  · simp [get_stock_info, hc, hi, hinfo]
  · intro kv
    simp [trimmedInfo, List.mem_filter, List.contains, List.elem_iff]
  · intro h
    simp only [trimmedInfo]
    rw [List.filter_eq_nil_iff]
    intro kv hkv
    simp [List.contains, List.elem_iff]
    exact h kv hkv

/-- Witness for C7: only the allow-listed key survives projection. -/
theorem C7_info_projection_witness :
    get_stock_info c7Provider "AAPL" =
      .ok "\x7b\"marketCap\": 3000000000000\x7d" := by
  rw [(C7_info_projection c7Provider "AAPL" "US0378331005"
    [("address1", Json.str "One Apple Park Way"),
      ("marketCap", Json.num 3000000000000),
      ("maxAge", Json.num 86400)] rfl rfl rfl).1]
  rfl

/-- Claim C8: when the fetched news list contains no item whose nested
content type is `STORY`, `get_yahoo_finance_news` returns exactly the
`No news found...` sentinel string. -/
theorem C8_no_story_sentinel (p : Provider) (ticker i : String)
    (items : List NewsItem) (hc : p.ctor = .ok ())
    (hi : p.isin = .ok (some i)) (hn : p.news = .ok items)
    (hstory : items.filter isStory = []) :
    get_yahoo_finance_news p ticker = .ok (noNews ticker) := by
  simp [get_yahoo_finance_news, hc, hi, hn, hstory]

/-- Witness for C8 on a concrete story-free news list. -/
theorem C8_no_story_sentinel_witness :
    get_yahoo_finance_news c8Provider "AAPL" = .ok (noNews "AAPL") :=
  C8_no_story_sentinel c8Provider "AAPL" "US0378331005" [c8Item] rfl rfl rfl
    (by decide)

/-- Claim C9: with at least one story item, `get_yahoo_finance_news`
keeps exactly the items whose nested content type is `STORY`, formats
each as the four-line `Title/Summary/Description/URL` block with every
field defaulting to the empty string when absent at any nesting level
(total on missing structure), and joins the blocks with a blank line into
a single string. -/
theorem C9_story_blocks (p : Provider) (ticker i : String)
    (items : List NewsItem) (hc : p.ctor = .ok ())
    (hi : p.isin = .ok (some i)) (hn : p.news = .ok items)
    (hstory : items.filter isStory ≠ []) :
    get_yahoo_finance_news p ticker =
      .ok (String.intercalate "\n\n" ((items.filter isStory).map newsBlock)) ∧
    (∀ x : NewsItem,
      x ∈ items.filter isStory ↔ x ∈ items ∧ newsContentType x = "STORY") ∧
    (∀ x : NewsItem, newsBlock x =
      "Title: " ++ newsTitle x ++ "\nSummary: " ++ newsSummary x
        ++ "\nDescription: " ++ newsDescription x ++ "\nURL: " ++ newsUrl x) ∧
    (∀ x : NewsItem, x.content = none →
      newsBlock x = "Title: \nSummary: \nDescription: \nURL: ") := by
  refine ⟨?_, ?_, fun x => rfl, ?_⟩
  · have hne : ((items.filter isStory).map newsBlock).isEmpty = false := by
      simp [List.isEmpty_iff, hstory]
    simp [get_yahoo_finance_news, hc, hi, hn, hne]
  · intro x
    simp [List.mem_filter, isStory]
  · intro x h
    simp only [newsBlock, newsTitle, newsSummary, newsDescription, newsUrl,
      h, Option.getD_none, emptyContent, emptyUrl]
    rfl

/-- Witness for C9 on a concrete news list with missing nested fields. -/
theorem C9_story_blocks_witness :
    get_yahoo_finance_news c9Provider "AAPL" =
      .ok "Title: Apple hits high\nSummary: \nDescription: \nURL: https://example.com/a" := by
  rw [(C9_story_blocks c9Provider "AAPL" "US0378331005" [c9Video, c9Story]
    rfl rfl rfl (by decide)).1]
  rfl

end YFin
